import Mathlib

/-!
# gateway-proxy: the decide / try / fall back / remember core

A shallow embedding of `gateway.go` (package `gateway`).

The handler code of `gateway.go` (`routeKey`, `mainHandler`, `setupProxyA`,
`setupProxyB`, `setupFallbackProxy` with its `ModifyResponse` and
`ErrorHandler` closures) is transcribed statement by statement.  It drives
`net/http/httputil.ReverseProxy`, which is modelled here by the steps of
`ReverseProxy.ServeHTTP` that the handlers observe:

* the outbound request is a clone of the incoming one, its body dropped when
  `ContentLength == 0`, rewritten by the single-host director
  (scheme, host, joined path, merged query);
* the transport answers with a response or with an error; the response's
  `Request` field is the outbound request;
* `ModifyResponse`, when set, sees the response before anything is written;
  when it returns an error the response is dropped and `ErrorHandler` runs;
* `ErrorHandler` receives the outbound request; the default one answers 502.

A body reader is modelled by what it still yields: `io.ReadAll` drains the
reader it is given, and a round trip leaves the body reader of the request it
sent in a state chosen by the environment.

What lies outside `gateway.go` is gathered in `Env`: the transport (the two
backends), `(*url.URL).EscapedPath`, the state in which a round trip leaves
the request body, and the constant `HeaderNoRoute`.  Request headers, hop-by-hop
header filtering, protocol upgrades, logging and timing are not modelled.
Target URLs carry no userinfo.
-/

namespace Gateway

/-! ## Data model -/

/-- A byte sequence (`[]byte`). -/
abbrev Bytes := List UInt8

/-- The fields of `net/url.URL` used by the proxy. -/
structure URL where
  Scheme : String
  Host : String
  Path : String
  RawPath : String
  RawQuery : String
deriving DecidableEq, Repr

/-- The state of an `io.ReadCloser`: it still yields `content` and then EOF, or
reading it fails with `err`.  A reader that has been read to the end is
`data []`. -/
inductive Reader where
  | data (content : Bytes)
  | failing (err : String)
deriving DecidableEq, Repr

/-- Outcome of calling `Request.GetBody`: a new reader, in the given state at
every call, or an error. -/
inductive GetBodyResult where
  | reader (rd : Reader)
  | error (err : String)
deriving DecidableEq, Repr

/-- The fields of `net/http.Request` used by the proxy.  `Body = none` is a nil
body; `GetBody = none` is a nil `GetBody`. -/
structure Request where
  Method : String
  URL : URL
  Host : String
  ContentLength : Int
  Body : Option Reader
  GetBody : Option GetBodyResult
deriving DecidableEq, Repr

/-- An `http.Header`: canonical keys with their values. -/
structure Header where
  entries : List (String × List String)
deriving DecidableEq, Repr

/-- What a backend puts on the wire: status, header and body. -/
structure Reply where
  StatusCode : Int
  Header : Header
  Body : Bytes
deriving DecidableEq, Repr

/-- A `net/http.Response` as the proxy hooks see it: the reply together with
the request that was sent to obtain it. -/
structure Response where
  StatusCode : Int
  Header : Header
  Body : Bytes
  Request : Request
deriving DecidableEq, Repr

/-- The route table `map[string]*url.URL`; `none` is an absent key. -/
abbrev Routes := String → Option URL

/-- The mutable and configured parts of `Server` that the handlers use. -/
structure Server where
  aTarget : URL
  bTarget : URL
  routes : Routes

/-- Everything the handlers depend on that is not in `gateway.go`. -/
structure Env where
  /-- The package constant `HeaderNoRoute`. -/
  HeaderNoRoute : String
  /-- The method `(*url.URL).EscapedPath`. -/
  EscapedPath : URL → String
  /-- The transport: given the requests sent so far (oldest first) and the
  outbound request, a reply or a transport error. -/
  RoundTrip : List Request → Request → Except String Reply
  /-- State of the body reader of a request once its round trip is over. -/
  BodyAfter : Request → Option Reader

/-- One handler run: the server, the requests handed to the transport so far
(oldest first) and what has been written to the `http.ResponseWriter`. -/
structure State where
  s : Server
  sent : List Request
  rw : Option Reply

/-! ## Library functions -/

/-- Token characters of `net/textproto` (`validHeaderFieldByte`). -/
def validHeaderFieldByte (c : Char) : Bool :=
  c.isAlphanum || "!#$%&'*+-.^_`|~".toList.contains c

/-- The case-fixing loop of `textproto.canonicalMIMEHeaderKey`. -/
def canonicalLoop : Bool → List Char → List Char
  | _, [] => []
  | upper, c :: cs =>
    let c1 := if upper && c.isLower then c.toUpper
      else if !upper && c.isUpper then c.toLower else c
    c1 :: canonicalLoop (c1 == '-') cs

/-- The function `textproto.CanonicalMIMEHeaderKey`. -/
def canonicalMIMEHeaderKey (s : String) : String :=
  if s.toList.all validHeaderFieldByte then String.mk (canonicalLoop true s.toList) else s

/-- The method `http.Header.Get`: first value stored under the canonical form of
`key`, or the empty string. -/
def Header.Get (h : Header) (key : String) : String :=
  match h.entries.lookup (canonicalMIMEHeaderKey key) with
  | some (v :: _) => v
  | _ => ""

/-- The test `strings.HasSuffix(s, "/")`. -/
def hasSuffixSlash (s : String) : Bool :=
  s.toList.getLast? == some '/'

/-- The test `strings.HasPrefix(s, "/")`. -/
def hasPrefixSlash (s : String) : Bool :=
  s.toList.head? == some '/'

/-- The slice `s[1:]` of a string that starts with a one-byte character. -/
def dropFirst (s : String) : String :=
  String.mk (s.toList.drop 1)

/-- The function `httputil.singleJoiningSlash`. -/
def singleJoiningSlash (a b : String) : String :=
  let aslash := hasSuffixSlash a
  let bslash := hasPrefixSlash b
  if aslash && bslash then a ++ dropFirst b
  else if !aslash && !bslash then a ++ "/" ++ b
  else a ++ b

/-- The function `httputil.joinURLPath`, returning `(path, rawpath)`. -/
def joinURLPath (env : Env) (a b : URL) : String × String :=
  if a.RawPath = "" ∧ b.RawPath = "" then
    (singleJoiningSlash a.Path b.Path, "")
  else
    -- Same as singleJoiningSlash, but uses EscapedPath to determine
    -- whether a slash should be added
    let apath := env.EscapedPath a
    let bpath := env.EscapedPath b
    let aslash := hasSuffixSlash apath
    let bslash := hasPrefixSlash bpath
    if aslash && bslash then (a.Path ++ dropFirst b.Path, apath ++ dropFirst bpath)
    else if !aslash && !bslash then (a.Path ++ "/" ++ b.Path, apath ++ "/" ++ bpath)
    else (a.Path ++ b.Path, apath ++ bpath)

/-- The director installed by `httputil.NewSingleHostReverseProxy(target)`. -/
def director (env : Env) (target : URL) (req : Request) : Request :=
  let joined := joinURLPath env target req.URL
  let query :=
    if target.RawQuery = "" ∨ req.URL.RawQuery = "" then target.RawQuery ++ req.URL.RawQuery
    else target.RawQuery ++ "&" ++ req.URL.RawQuery
  { req with
    URL := { Scheme := target.Scheme, Host := target.Host, Path := joined.1,
             RawPath := joined.2, RawQuery := query } }

/-- The bytes of a string (`[]byte(s)`). -/
def utf8 (s : String) : Bytes :=
  s.toList.flatMap String.utf8EncodeChar

/-- The function `http.Error`: a plain-text reply with the given status. -/
def httpError (msg : String) (code : Int) : Reply :=
  { StatusCode := code,
    Header := ⟨[("Content-Type", ["text/plain; charset=utf-8"]),
                ("X-Content-Type-Options", ["nosniff"])]⟩,
    Body := utf8 (msg ++ "\n") }

/-- A `httputil.ReverseProxy` built by `NewSingleHostReverseProxy(target)`,
with its two optional hooks. -/
structure ReverseProxy where
  target : URL
  ModifyResponse : Option (State → Response → State × Option String)
  ErrorHandler : Option (State → Request → String → State)

/-- The function `httputil.NewSingleHostReverseProxy`. -/
def NewSingleHostReverseProxy (target : URL) : ReverseProxy :=
  { target := target, ModifyResponse := none, ErrorHandler := none }

/-- The reply written by the default error handler:
`rw.WriteHeader(http.StatusBadGateway)`. -/
def badGateway : Reply :=
  { StatusCode := 502, Header := ⟨[]⟩, Body := [] }

/-- The default error handler of `ReverseProxy`. -/
def defaultErrorHandler (st : State) (_req : Request) (_err : String) : State :=
  { st with rw := some badGateway }

/-- The method `ReverseProxy.getErrorHandler`. -/
def ReverseProxy.getErrorHandler (p : ReverseProxy) : State → Request → String → State :=
  match p.ErrorHandler with
  | some h => h
  | none => defaultErrorHandler

/-- The outbound request `ServeHTTP` builds from `req`: a clone without body
when `ContentLength == 0`, rewritten by the director. -/
def ReverseProxy.outreq (env : Env) (p : ReverseProxy) (req : Request) : Request :=
  director env p.target (if req.ContentLength = 0 then { req with Body := none } else req)

/-- An outbound request once its round trip is over: the transport has read
from its body and closed it. -/
def afterTrip (env : Env) (outreq : Request) : Request :=
  { outreq with Body := env.BodyAfter outreq }

/-- The method `ReverseProxy.ServeHTTP`. -/
def ReverseProxy.ServeHTTP (env : Env) (p : ReverseProxy) (st : State) (req : Request) : State :=
  let outreq := p.outreq env req
  let st1 : State := { st with sent := st.sent ++ [outreq] }
  let after : Request := afterTrip env outreq
  match env.RoundTrip st.sent outreq with
  | .error err => p.getErrorHandler st1 after err
  | .ok reply =>
    let res : Response :=
      { StatusCode := reply.StatusCode, Header := reply.Header, Body := reply.Body,
        Request := after }
    match p.ModifyResponse with
    | none => { st1 with rw := some reply }
    | some f =>
      match f st1 res with
      | (st2, some err) => p.getErrorHandler st2 after err
      | (st2, none) => { st2 with rw := some reply }

/-! ## gateway.go -/

/-- The function `routeKey`: `fmt.Sprintf("%v %v", r.Method, r.URL.Path)`. -/
def routeKey (r : Request) : String :=
  r.Method ++ " " ++ r.URL.Path

/-- The statement `s.routes[key] = target`. -/
def Routes.set (routes : Routes) (key : String) (target : URL) : Routes :=
  fun k => if k = key then some target else routes k

/-- The method `Server.setupProxyB`. -/
def setupProxyB (s : Server) : ReverseProxy :=
  NewSingleHostReverseProxy s.bTarget

/-- The method `Server.setupProxyA`. -/
def setupProxyA (s : Server) : ReverseProxy :=
  NewSingleHostReverseProxy s.aTarget

/-- The `ModifyResponse` closure of `setupFallbackProxy`. -/
def fallbackModifyResponse (env : Env) (st : State) (response : Response) :
    State × Option String :=
  if response.StatusCode = 404 ∧ response.Header.Get env.HeaderNoRoute ≠ "" then
    -- cache the fallback B route
    ({ st with s := { st.s with
        routes := st.s.routes.set (routeKey response.Request) st.s.bTarget } },
     some "not found")
  else
    -- cache the successful A route
    ({ st with s := { st.s with
        routes := st.s.routes.set (routeKey response.Request) st.s.aTarget } },
     none)

/-- The `ErrorHandler` closure of `setupFallbackProxy`: fall back to B. -/
def fallbackErrorHandler (env : Env) (st : State) (req : Request) (_err : String) : State :=
  match req.GetBody with
  | some (.error err) =>
    { st with rw := some (httpError ("error re-reading body: " ++ err) 500) }
  | some (.reader b) =>
    (setupProxyB st.s).ServeHTTP env st { req with Body := some b }
  | none =>
    (setupProxyB st.s).ServeHTTP env st req

/-- The method `Server.setupFallbackProxy`. -/
def setupFallbackProxy (env : Env) (s : Server) : ReverseProxy :=
  { NewSingleHostReverseProxy s.aTarget with
    ModifyResponse := some (fallbackModifyResponse env),
    ErrorHandler := some (fallbackErrorHandler env) }

/-- The function `io.ReadAll` on a reader: the bytes read or the error, and the
reader as the call leaves it, with nothing more to yield. -/
def Reader.ReadAll : Reader → Except String Bytes × Reader
  | .data content => (.ok content, .data [])
  | .failing err => (.error err, .failing err)

/-- The two assignments of `mainHandler` that follow `io.ReadAll`: `r.Body`
becomes a new buffer over `body`, and `r.GetBody` hands out a new buffer over
`body` at every call. -/
def bufferBody (r : Request) (body : Bytes) : Request :=
  { r with Body := some (.data body), GetBody := some (.reader (.data body)) }

/-- The method `Server.mainHandler`.  A nil `r.Body` makes `io.ReadAll` panic:
nothing is written and nothing is sent.  Once `io.ReadAll` has returned,
`r.Body` is the drained reader until it is assigned again. -/
def mainHandler (env : Env) (st : State) (r : Request) : State :=
  match st.s.routes (routeKey r) with
  | none =>
    -- cached route not found, buffering body for possible fallback redirect
    match r.Body with
    | none => st
    | some rd =>
      match rd.ReadAll with
      | (.error err, _) =>
        { st with rw := some (httpError ("error reading body: " ++ err) 500) }
      | (.ok body, drained) =>
        (setupFallbackProxy env st.s).ServeHTTP env st
          (bufferBody { r with Body := some drained } body)
  | some route =>
    if route = st.s.bTarget then
      (setupProxyB st.s).ServeHTTP env st r
    else
      (setupProxyA st.s).ServeHTTP env st r

/-- The function `NewServer` once both URLs are parsed: an empty route table. -/
def NewServer (remoteA remoteB : URL) : Server :=
  { aTarget := remoteA, bTarget := remoteB, routes := fun _ => none }

/-! ## Vocabulary of the statements -/

/-- The bytes a request offers to the transport: none for a nil body, else the
content of its reader. -/
def Request.offered (q : Request) : Reader :=
  match q.Body with
  | none => .data []
  | some rd => rd

/-- What a hook-free proxy writes for a transport outcome. -/
def relay : Except String Reply → Reply
  | .ok reply => reply
  | .error _ => badGateway

/-- The state in which the next request is handled: same server and history,
a fresh `http.ResponseWriter`. -/
def State.next (st : State) : State :=
  { st with rw := none }

/-- The request sent to A when `r`, with body `body`, misses the cache. -/
def probeA (env : Env) (s : Server) (r : Request) (body : Bytes) : Request :=
  (setupFallbackProxy env s).outreq env (bufferBody r body)

/-- The request sent to B when the probe of A for `r` falls back. -/
def replayB (env : Env) (s : Server) (r : Request) (body : Bytes) : Request :=
  (setupProxyB s).outreq env
    { afterTrip env (probeA env s r body) with Body := some (.data body) }

/-! ## Scenario of `gateway_test.go` -/

namespace Demo

/-- The handler of `backendA` in `TestNewServer`. -/
def backendA (q : Request) (body : Bytes) : Reply :=
  let text := utf8 "I am the A backend, you sent " ++ body
  if q.URL.Path = "/exists-in-a" then
    { StatusCode := 200, Header := ⟨[]⟩, Body := text }
  else if q.URL.Path = "/exists-in-a-but-no-data" then
    { StatusCode := 404, Header := ⟨[]⟩, Body := text }
  else
    { StatusCode := 404, Header := ⟨[("X-No-Route", ["a"])]⟩, Body := text }

/-- The handler of `backendB` in `TestNewServer`. -/
def backendB (q : Request) (body : Bytes) : Reply :=
  let text := utf8 "I am the B backend, you sent " ++ body
  if q.URL.Path = "/exists-in-b" then
    { StatusCode := 200, Header := ⟨[]⟩, Body := text }
  else if q.URL.Path = "/exists-in-b-but-no-data" then
    { StatusCode := 404, Header := ⟨[]⟩, Body := text }
  else
    { StatusCode := 404, Header := ⟨[("X-No-Route", ["b"])]⟩, Body := text }

/-- The handler of `backendA` mounted under the base path `/api`: it sees the
path that follows the four bytes of the base path. -/
def mountedA (q : Request) (body : Bytes) : Reply :=
  backendA { q with URL := { q.URL with Path := String.mk (q.URL.Path.toList.drop 4) } } body

/-- A transport that reaches `backendA` at host `a.example`, `backendA` under
`/api` at host `api.example`, `backendB` at host `b.example`, and no other
host. -/
def roundTrip (_sent : List Request) (q : Request) : Except String Reply :=
  match q.offered with
  | .failing err => .error err
  | .data body =>
    if q.URL.Host = "a.example" then .ok (backendA q body)
    else if q.URL.Host = "api.example" then .ok (mountedA q body)
    else if q.URL.Host = "b.example" then .ok (backendB q body)
    else .error "dial tcp: no such host"

/-- The environment of the scenarios.  Their paths need no escaping, so
`EscapedPath` is the path itself; a round trip drains the request body. -/
def env : Env :=
  { HeaderNoRoute := "X-No-Route",
    EscapedPath := fun u => u.Path,
    RoundTrip := roundTrip,
    BodyAfter := fun _ => some (.data []) }

/-- The result of `url.Parse` on `http://host` followed by `path`. -/
def target (host path : String) : URL :=
  { Scheme := "http", Host := host, Path := path, RawPath := "", RawQuery := "" }

/-- The bytes of `hello`. -/
def hello : Bytes := [104, 101, 108, 108, 111]

/-- An inbound request for `path` with body `hello`, as the HTTP server hands
it to the handler. -/
def inbound (method path : String) : Request :=
  { Method := method,
    URL := { Scheme := "", Host := "", Path := path, RawPath := "", RawQuery := "" },
    Host := "localhost:80", ContentLength := 5, Body := some (.data hello), GetBody := none }

/-- An inbound request whose body cannot be read. -/
def broken (method path : String) : Request :=
  { inbound method path with Body := some (.failing "unexpected EOF") }

/-- A fresh server in front of the given targets, nothing sent or written. -/
def start (a b : URL) : State :=
  { s := NewServer a b, sent := [], rw := none }

/-- Both backends at the root of their host, as in `TestNewServer`. -/
def plain : State :=
  start (target "a.example" "") (target "b.example" "")

/-- Backend A served under the base path `/api`: `GATEWAY_A_URL` is
`http://api.example/api`, `GATEWAY_B_URL` is `http://b.example`. -/
def based : State :=
  start (target "api.example" "/api") (target "b.example" "")

/-- Backend A at a host that cannot be reached. -/
def down : State :=
  start (target "down.example" "") (target "b.example" "")

/-- An inbound request whose `GetBody` is already set and fails. -/
def unreplayable (method path : String) : Request :=
  { inbound method path with GetBody := some (.error "body gone") }

/-- The scenario "two requests served from b", after its first request. -/
def warm : State :=
  (mainHandler env plain (inbound "POST" "/exists-in-b")).next

/-- The same inbound request with a query string. -/
def queried (method path query : String) : Request :=
  { inbound method path with
    URL := { Scheme := "", Host := "", Path := path, RawPath := "", RawQuery := query } }

end Demo

/-! ## Basic facts -/

/-- Splitting at the first separator is unambiguous when neither left part
contains the separator. -/
theorem append_sep_inj {α : Type} (c : α) :
    ∀ (l1 l2 p1 p2 : List α), c ∉ l1 → c ∉ l2 →
      l1 ++ c :: p1 = l2 ++ c :: p2 → l1 = l2 ∧ p1 = p2 := by
  intro l1
  induction l1 with
  | nil =>
    intro l2 p1 p2 _ h2 h
    cases l2 with
    | nil => simpa using h
    | cons x xs =>
      simp only [List.nil_append, List.cons_append, List.cons.injEq] at h
      exact absurd (h.1 ▸ List.mem_cons_self c xs) h2
  | cons y ys ih =>
    intro l2 p1 p2 h1 h2 h
    cases l2 with
    | nil =>
      simp only [List.nil_append, List.cons_append, List.cons.injEq] at h
      exact absurd (h.1 ▸ List.mem_cons_self c ys) h1
    | cons x xs =>
      simp only [List.cons_append, List.cons.injEq] at h
      have hy : c ∉ ys := fun hm => h1 (List.mem_cons_of_mem _ hm)
      have hx : c ∉ xs := fun hm => h2 (List.mem_cons_of_mem _ hm)
      obtain ⟨e1, e2⟩ := ih xs p1 p2 hy hx h.2
      exact ⟨by rw [h.1, e1], e2⟩

/-- The characters of a route key. -/
theorem routeKey_toList (r : Request) :
    (routeKey r).toList = r.Method.toList ++ ' ' :: r.URL.Path.toList := by
  simp [routeKey, String.toList]

/-- A proxy without hooks sends one request and relays the outcome. -/
theorem serveHTTP_direct (env : Env) (target : URL) (st : State) (req : Request) :
    (NewSingleHostReverseProxy target).ServeHTTP env st req =
      { st with
        sent := st.sent ++ [(NewSingleHostReverseProxy target).outreq env req],
        rw := some (relay (env.RoundTrip st.sent
          ((NewSingleHostReverseProxy target).outreq env req))) } := by
  simp only [ReverseProxy.ServeHTTP, NewSingleHostReverseProxy, ReverseProxy.getErrorHandler,
    defaultErrorHandler, relay]
  cases env.RoundTrip st.sent _ <;> rfl

/-- A transport error hands the outbound request to the error handler. -/
theorem serveHTTP_error (env : Env) (p : ReverseProxy) (st : State) (req : Request)
    (err : String) (h : env.RoundTrip st.sent (p.outreq env req) = .error err) :
    p.ServeHTTP env st req =
      p.getErrorHandler { st with sent := st.sent ++ [p.outreq env req] }
        (afterTrip env (p.outreq env req)) err := by
  unfold ReverseProxy.ServeHTTP
  simp only [h]

/-- A reply goes through `ModifyResponse` before anything is written. -/
theorem serveHTTP_reply (env : Env) (p : ReverseProxy) (st : State) (req : Request)
    (reply : Reply) (f : State → Response → State × Option String)
    (h : env.RoundTrip st.sent (p.outreq env req) = .ok reply)
    (hf : p.ModifyResponse = some f) :
    p.ServeHTTP env st req =
      match f { st with sent := st.sent ++ [p.outreq env req] }
          { StatusCode := reply.StatusCode, Header := reply.Header, Body := reply.Body,
            Request := afterTrip env (p.outreq env req) } with
      | (st2, some err) => p.getErrorHandler st2 (afterTrip env (p.outreq env req)) err
      | (st2, none) => { st2 with rw := some reply } := by
  unfold ReverseProxy.ServeHTTP
  simp only [h, hf]

/-- The director keeps the method of the request. -/
theorem outreq_Method (env : Env) (p : ReverseProxy) (req : Request) :
    (p.outreq env req).Method = req.Method := by
  unfold ReverseProxy.outreq director
  split <;> rfl

/-- The director keeps `GetBody`. -/
theorem outreq_GetBody (env : Env) (p : ReverseProxy) (req : Request) :
    (p.outreq env req).GetBody = req.GetBody := by
  unfold ReverseProxy.outreq director
  split <;> rfl

/-- The director keeps `ContentLength`. -/
theorem outreq_ContentLength (env : Env) (p : ReverseProxy) (req : Request) :
    (p.outreq env req).ContentLength = req.ContentLength := by
  unfold ReverseProxy.outreq director
  split <;> rfl

/-- The body handed to the transport: dropped when `ContentLength == 0`. -/
theorem outreq_Body (env : Env) (p : ReverseProxy) (req : Request) :
    (p.outreq env req).Body = if req.ContentLength = 0 then none else req.Body := by
  unfold ReverseProxy.outreq director
  split <;> rfl

/-- The path asked of the target: its base path joined with the request path. -/
theorem outreq_Path (env : Env) (p : ReverseProxy) (req : Request) :
    (p.outreq env req).URL.Path = (joinURLPath env p.target req.URL).1 := by
  unfold ReverseProxy.outreq director
  split <;> rfl

/-- The director addresses the request to the scheme and host of the target. -/
theorem outreq_Authority (env : Env) (p : ReverseProxy) (req : Request) :
    (p.outreq env req).URL.Scheme = p.target.Scheme ∧
    (p.outreq env req).URL.Host = p.target.Host := by
  unfold ReverseProxy.outreq director
  split <;> exact ⟨rfl, rfl⟩

/-- The route key of an outbound request is not changed by its round trip. -/
theorem routeKey_afterTrip (env : Env) (q : Request) :
    routeKey (afterTrip env q) = routeKey q := rfl

/-- The error handler of the fallback proxy with a working `GetBody`: the
request, its body rewound, goes to B through the direct proxy. -/
theorem errorHandler_reader (env : Env) (st : State) (req : Request) (err : String)
    (b : Reader) (h : req.GetBody = some (.reader b)) :
    fallbackErrorHandler env st req err =
      { st with
        sent := st.sent ++ [(setupProxyB st.s).outreq env { req with Body := some b }],
        rw := some (relay (env.RoundTrip st.sent
          ((setupProxyB st.s).outreq env { req with Body := some b }))) } := by
  unfold fallbackErrorHandler
  simp only [h]
  exact serveHTTP_direct env st.s.bTarget st _

/-- The error handler of the fallback proxy on a request without `GetBody`:
nothing is rewound, B is sent the body reader as the attempt on A left it. -/
theorem errorHandler_nil (env : Env) (st : State) (req : Request) (err : String)
    (h : req.GetBody = none) :
    fallbackErrorHandler env st req err =
      { st with
        sent := st.sent ++ [(setupProxyB st.s).outreq env req],
        rw := some (relay (env.RoundTrip st.sent ((setupProxyB st.s).outreq env req))) } := by
  unfold fallbackErrorHandler
  simp only [h]
  exact serveHTTP_direct env st.s.bTarget st _

/-- The error handler of the fallback proxy when `GetBody` fails. -/
theorem errorHandler_error (env : Env) (st : State) (req : Request) (err e : String)
    (h : req.GetBody = some (.error e)) :
    fallbackErrorHandler env st req err =
      { st with rw := some (httpError ("error re-reading body: " ++ e) 500) } := by
  unfold fallbackErrorHandler
  simp only [h]

/-- Fallback proxy, A unreachable: the error handler runs on the outbound
request and the route table is untouched. -/
theorem fallback_unreachable (env : Env) (st : State) (req : Request) (err : String)
    (h : env.RoundTrip st.sent ((setupFallbackProxy env st.s).outreq env req) = .error err) :
    (setupFallbackProxy env st.s).ServeHTTP env st req =
      fallbackErrorHandler env
        { st with sent := st.sent ++ [(setupFallbackProxy env st.s).outreq env req] }
        (afterTrip env ((setupFallbackProxy env st.s).outreq env req)) err :=
  serveHTTP_error env _ st req err h

/-- Fallback proxy, A answers 404 with the no-route header: B is recorded under
the route key of the outbound request and the error handler runs. -/
theorem fallback_noRoute (env : Env) (st : State) (req : Request) (reply : Reply)
    (h : env.RoundTrip st.sent ((setupFallbackProxy env st.s).outreq env req) = .ok reply)
    (h404 : reply.StatusCode = 404) (hhdr : reply.Header.Get env.HeaderNoRoute ≠ "") :
    (setupFallbackProxy env st.s).ServeHTTP env st req =
      fallbackErrorHandler env
        { s := { st.s with
                 routes := st.s.routes.set
                   (routeKey ((setupFallbackProxy env st.s).outreq env req)) st.s.bTarget },
          sent := st.sent ++ [(setupFallbackProxy env st.s).outreq env req],
          rw := st.rw }
        (afterTrip env ((setupFallbackProxy env st.s).outreq env req)) "not found" := by
  rw [serveHTTP_reply env _ st req reply (fallbackModifyResponse env) h rfl]
  simp only [fallbackModifyResponse, h404, hhdr, ne_eq, not_false_eq_true, and_self, if_true,
    routeKey_afterTrip]
  rfl

/-- Fallback proxy, any other answer of A: A is recorded under the route key of
the outbound request and the reply is written as it is. -/
theorem fallback_served (env : Env) (st : State) (req : Request) (reply : Reply)
    (h : env.RoundTrip st.sent ((setupFallbackProxy env st.s).outreq env req) = .ok reply)
    (hno : ¬ (reply.StatusCode = 404 ∧ reply.Header.Get env.HeaderNoRoute ≠ "")) :
    (setupFallbackProxy env st.s).ServeHTTP env st req =
      { s := { st.s with
               routes := st.s.routes.set
                 (routeKey ((setupFallbackProxy env st.s).outreq env req)) st.s.aTarget },
        sent := st.sent ++ [(setupFallbackProxy env st.s).outreq env req],
        rw := some reply } := by
  rw [serveHTTP_reply env _ st req reply (fallbackModifyResponse env) h rfl]
  simp only [fallbackModifyResponse, hno, if_false, routeKey_afterTrip]

/-- On a cache miss with a readable body the request, buffered, is served by
the fallback proxy. -/
theorem mainHandler_miss (env : Env) (st : State) (r : Request) (body : Bytes)
    (hmiss : st.s.routes (routeKey r) = none) (hbody : r.Body = some (.data body)) :
    mainHandler env st r =
      (setupFallbackProxy env st.s).ServeHTTP env st (bufferBody r body) := by
  unfold mainHandler
  simp only [hmiss, hbody, Reader.ReadAll]
  rfl

/-- The buffered request still carries its `GetBody` after the attempt on A. -/
theorem probeA_GetBody (env : Env) (s : Server) (r : Request) (body : Bytes) :
    (afterTrip env (probeA env s r body)).GetBody = some (.reader (.data body)) := by
  show (probeA env s r body).GetBody = _
  unfold probeA
  rw [outreq_GetBody]
  rfl

/-- The request sent to A offers the inbound body. -/
theorem probeA_offered (env : Env) (s : Server) (r : Request) (body : Bytes)
    (hlen : r.ContentLength = 0 → body = []) :
    (probeA env s r body).offered = .data body := by
  unfold Request.offered probeA
  rw [outreq_Body]
  by_cases h : r.ContentLength = 0
  · simp [bufferBody, h, hlen h]
  · simp [bufferBody, h]

/-- The request replayed to B offers the inbound body. -/
theorem replayB_offered (env : Env) (s : Server) (r : Request) (body : Bytes)
    (hlen : r.ContentLength = 0 → body = []) :
    (replayB env s r body).offered = .data body := by
  have hcl : ({ afterTrip env (probeA env s r body) with
      Body := some (.data body) } : Request).ContentLength = r.ContentLength := by
    show (probeA env s r body).ContentLength = _
    unfold probeA
    rw [outreq_ContentLength]
    rfl
  unfold Request.offered replayB
  rw [outreq_Body, hcl]
  by_cases h : r.ContentLength = 0
  · simp [h, hlen h]
  · simp [h]

/-- Cache miss, A unreachable: A then B are contacted, the outcome of B is
relayed and the server is unchanged. -/
theorem miss_unreachable (env : Env) (st : State) (r : Request) (body : Bytes) (err : String)
    (hmiss : st.s.routes (routeKey r) = none) (hbody : r.Body = some (.data body))
    (hA : env.RoundTrip st.sent (probeA env st.s r body) = .error err) :
    mainHandler env st r =
      { s := st.s,
        sent := st.sent ++ [probeA env st.s r body, replayB env st.s r body],
        rw := some (relay (env.RoundTrip (st.sent ++ [probeA env st.s r body])
          (replayB env st.s r body))) } := by
  have hg := probeA_GetBody env st.s r body
  simp only [probeA] at hg hA
  rw [mainHandler_miss env st r body hmiss hbody, fallback_unreachable env st _ err hA,
    errorHandler_reader env _ _ _ (.data body) hg]
  simp [replayB, probeA]

/-- Cache miss, A answers 404 with the no-route header: A then B are contacted,
the outcome of B is relayed, and B is recorded under the route key of the
request that was sent to A. -/
theorem miss_noRoute (env : Env) (st : State) (r : Request) (body : Bytes) (reply : Reply)
    (hmiss : st.s.routes (routeKey r) = none) (hbody : r.Body = some (.data body))
    (hA : env.RoundTrip st.sent (probeA env st.s r body) = .ok reply)
    (h404 : reply.StatusCode = 404) (hhdr : reply.Header.Get env.HeaderNoRoute ≠ "") :
    mainHandler env st r =
      { s := { st.s with
               routes := st.s.routes.set (routeKey (probeA env st.s r body)) st.s.bTarget },
        sent := st.sent ++ [probeA env st.s r body, replayB env st.s r body],
        rw := some (relay (env.RoundTrip (st.sent ++ [probeA env st.s r body])
          (replayB env st.s r body))) } := by
  have hg := probeA_GetBody env st.s r body
  simp only [probeA] at hg hA
  rw [mainHandler_miss env st r body hmiss hbody, fallback_noRoute env st _ reply hA h404 hhdr,
    errorHandler_reader env _ _ _ (.data body) hg]
  simp [replayB, probeA, setupProxyB]

/-- Cache miss, any other answer of A: only A is contacted, its reply is
written as it is, and A is recorded under the route key of the request that
was sent to A. -/
theorem miss_served (env : Env) (st : State) (r : Request) (body : Bytes) (reply : Reply)
    (hmiss : st.s.routes (routeKey r) = none) (hbody : r.Body = some (.data body))
    (hA : env.RoundTrip st.sent (probeA env st.s r body) = .ok reply)
    (hno : ¬ (reply.StatusCode = 404 ∧ reply.Header.Get env.HeaderNoRoute ≠ "")) :
    mainHandler env st r =
      { s := { st.s with
               routes := st.s.routes.set (routeKey (probeA env st.s r body)) st.s.aTarget },
        sent := st.sent ++ [probeA env st.s r body],
        rw := some reply } := by
  simp only [probeA] at hA
  rw [mainHandler_miss env st r body hmiss hbody, fallback_served env st _ reply hA hno]
  rfl

/-- On a cache miss with a readable body the first request sent goes to A, and
at most the replay to B follows it. -/
theorem miss_sent (env : Env) (st : State) (r : Request) (body : Bytes)
    (hmiss : st.s.routes (routeKey r) = none) (hbody : r.Body = some (.data body)) :
    (mainHandler env st r).sent = st.sent ++ [probeA env st.s r body] ∨
    (mainHandler env st r).sent =
      st.sent ++ [probeA env st.s r body, replayB env st.s r body] := by
  cases hA : env.RoundTrip st.sent (probeA env st.s r body) with
  | error err =>
    right
    rw [miss_unreachable env st r body err hmiss hbody hA]
  | ok reply =>
    by_cases hno : reply.StatusCode = 404 ∧ reply.Header.Get env.HeaderNoRoute ≠ ""
    · right
      rw [miss_noRoute env st r body reply hmiss hbody hA hno.1 hno.2]
    · left
      rw [miss_served env st r body reply hmiss hbody hA hno]

/-- On a cache hit for the target `X` of A or of B the request is served by the
direct proxy of `X`. -/
theorem mainHandler_hit (env : Env) (st : State) (r : Request) (X : URL)
    (hX : X = st.s.aTarget ∨ X = st.s.bTarget)
    (hhit : st.s.routes (routeKey r) = some X) :
    mainHandler env st r = (NewSingleHostReverseProxy X).ServeHTTP env st r := by
  unfold mainHandler
  simp only [hhit]
  by_cases hb : X = st.s.bTarget
  · simp only [hb, if_true, setupProxyB]
  · rcases hX with ha | hb2
    · rw [if_neg hb, ha]
      rfl
    · exact absurd hb2 hb

/-- A target at the root of its host leaves a rooted request path as it is. -/
theorem singleJoiningSlash_root (p : String) (h : hasPrefixSlash p = true) :
    singleJoiningSlash "" p = p := by
  have ha : hasSuffixSlash "" = false := by decide
  simp only [singleJoiningSlash, ha, h, Bool.false_and, Bool.not_false, Bool.not_true,
    Bool.and_false, if_false, Bool.false_eq_true]
  exact String.ext (by simp)

/-- When A sits at the root of its host and the inbound path is rooted and
carries no raw form, the request sent to A has the route key of the inbound
request. -/
theorem probeA_routeKey_root (env : Env) (s : Server) (r : Request) (body : Bytes)
    (hpath : s.aTarget.Path = "") (hraw : s.aTarget.RawPath = "")
    (hr : r.URL.RawPath = "") (hslash : hasPrefixSlash r.URL.Path = true) :
    routeKey (probeA env s r body) = routeKey r := by
  unfold routeKey probeA
  rw [outreq_Method, outreq_Path]
  simp only [setupFallbackProxy, NewSingleHostReverseProxy, joinURLPath, hraw, bufferBody, hr,
    and_self, if_true, hpath, singleJoiningSlash_root _ hslash]

/-- Whatever A answers on a cache miss, the backend it resolves to is recorded
under the route key of the request that was sent to A; when that key is the
key of the inbound request, the inbound key is cached to the resolved
backend. -/
theorem resolved_key_cached (env : Env) (st : State) (r : Request) (body : Bytes)
    (reply : Reply)
    (hmiss : st.s.routes (routeKey r) = none) (hbody : r.Body = some (.data body))
    (hA : env.RoundTrip st.sent (probeA env st.s r body) = .ok reply)
    (hkey : routeKey (probeA env st.s r body) = routeKey r) :
    (mainHandler env st r).s.routes (routeKey r) =
      some (if reply.StatusCode = 404 ∧ reply.Header.Get env.HeaderNoRoute ≠ ""
        then st.s.bTarget else st.s.aTarget) := by
  by_cases hno : reply.StatusCode = 404 ∧ reply.Header.Get env.HeaderNoRoute ≠ ""
  · rw [miss_noRoute env st r body reply hmiss hbody hA hno.1 hno.2, if_pos hno]
    simp [Routes.set, hkey]
  · rw [miss_served env st r body reply hmiss hbody hA hno, if_neg hno]
    simp [Routes.set, hkey]

/-- The scenario "first request served from b" of `TestNewServer`: hits
`a, b`, status 200 from B, and `GET /exists-in-b` cached to B. -/
theorem test_first_request_served_from_b :
    (mainHandler Demo.env Demo.plain (Demo.inbound "GET" "/exists-in-b")).sent.map
        (fun q => q.URL.Host) = ["a.example", "b.example"] ∧
    (mainHandler Demo.env Demo.plain (Demo.inbound "GET" "/exists-in-b")).rw =
      some { StatusCode := 200, Header := ⟨[]⟩,
             Body := utf8 "I am the B backend, you sent hello" } ∧
    (mainHandler Demo.env Demo.plain (Demo.inbound "GET" "/exists-in-b")).s.routes
        "GET /exists-in-b" = some Demo.plain.s.bTarget := by
  refine ⟨by decide, by decide, by decide⟩

/-- The scenario "missing path" of `TestNewServer`: two `POST /blah`, hits
`a, b, b`, and the second reply is the 404 of B. -/
theorem test_missing_path :
    (mainHandler Demo.env (mainHandler Demo.env Demo.plain (Demo.inbound "POST" "/blah")).next
        (Demo.inbound "POST" "/blah")).sent.map (fun q => q.URL.Host) =
      ["a.example", "b.example", "b.example"] ∧
    (mainHandler Demo.env (mainHandler Demo.env Demo.plain (Demo.inbound "POST" "/blah")).next
        (Demo.inbound "POST" "/blah")).rw =
      some { StatusCode := 404, Header := ⟨[("X-No-Route", ["b"])]⟩,
             Body := utf8 "I am the B backend, you sent hello" } := by
  refine ⟨by decide, by decide⟩

/-- The scenario "two no data requests served from a" of `TestNewServer`: a 404
of A without the no-route header is passed on, hits `a, a`. -/
theorem test_two_no_data_requests_served_from_a :
    (mainHandler Demo.env
        (mainHandler Demo.env Demo.plain (Demo.inbound "POST" "/exists-in-a-but-no-data")).next
        (Demo.inbound "POST" "/exists-in-a-but-no-data")).sent.map (fun q => q.URL.Host) =
      ["a.example", "a.example"] ∧
    (mainHandler Demo.env Demo.plain (Demo.inbound "POST" "/exists-in-a-but-no-data")).rw =
      some { StatusCode := 404, Header := ⟨[]⟩,
             Body := utf8 "I am the A backend, you sent hello" } := by
  refine ⟨by decide, by decide⟩

/-! ## Claims -/

/-- C10: two requests whose methods contain no space and whose route keys are
equal have the same method and the same URL path. -/
theorem routeKey_injective (r1 r2 : Request)
    (h1 : ' ' ∉ r1.Method.toList) (h2 : ' ' ∉ r2.Method.toList)
    (h : routeKey r1 = routeKey r2) :
    r1.Method = r2.Method ∧ r1.URL.Path = r2.URL.Path := by
  have hl : (routeKey r1).toList = (routeKey r2).toList := by rw [h]
  rw [routeKey_toList, routeKey_toList] at hl
  obtain ⟨e1, e2⟩ := append_sep_inj ' ' _ _ _ _ h1 h2 hl
  exact ⟨String.ext e1, String.ext e2⟩

/-- C9: on a cache miss, when reading the inbound body fails the client gets a
500 reply, no request is handed to the transport and the server (its route
table included) is unchanged. -/
theorem body_read_error (env : Env) (st : State) (r : Request) (err : String)
    (hmiss : st.s.routes (routeKey r) = none)
    (hbody : r.Body = some (.failing err)) :
    (mainHandler env st r).rw = some (httpError ("error reading body: " ++ err) 500) ∧
    (httpError ("error reading body: " ++ err) 500).StatusCode = 500 ∧
    (mainHandler env st r).sent = st.sent ∧
    (mainHandler env st r).s = st.s := by
  simp [mainHandler, hmiss, hbody, Reader.ReadAll, httpError]

/-- Witness of C9: `POST /blah` with an unreadable body on a fresh server. -/
theorem body_read_error_witness :
    (mainHandler Demo.env Demo.plain (Demo.broken "POST" "/blah")).rw =
        some (httpError ("error reading body: " ++ "unexpected EOF") 500) ∧
    (httpError ("error reading body: " ++ "unexpected EOF") 500).StatusCode = 500 ∧
    (mainHandler Demo.env Demo.plain (Demo.broken "POST" "/blah")).sent = Demo.plain.sent ∧
    (mainHandler Demo.env Demo.plain (Demo.broken "POST" "/blah")).s = Demo.plain.s :=
  body_read_error Demo.env Demo.plain (Demo.broken "POST" "/blah") "unexpected EOF" rfl rfl

/-- C8: when the fallback proxy enters its error path (A unreachable, or A
answered 404 with the no-route header) and `GetBody` returns an error, the
client gets a 500 reply and the only request sent is the one to A. -/
theorem body_replay_error (env : Env) (st : State) (req : Request) (e : String)
    (hget : req.GetBody = some (.error e))
    (hA : (∃ err, env.RoundTrip st.sent ((setupFallbackProxy env st.s).outreq env req)
              = .error err) ∨
          (∃ reply, env.RoundTrip st.sent ((setupFallbackProxy env st.s).outreq env req)
              = .ok reply ∧
            reply.StatusCode = 404 ∧ reply.Header.Get env.HeaderNoRoute ≠ "")) :
    ((setupFallbackProxy env st.s).ServeHTTP env st req).rw =
        some (httpError ("error re-reading body: " ++ e) 500) ∧
    (httpError ("error re-reading body: " ++ e) 500).StatusCode = 500 ∧
    ((setupFallbackProxy env st.s).ServeHTTP env st req).sent =
        st.sent ++ [(setupFallbackProxy env st.s).outreq env req] := by
  have hg : (afterTrip env ((setupFallbackProxy env st.s).outreq env req)).GetBody
      = some (.error e) := by
    show ((setupFallbackProxy env st.s).outreq env req).GetBody = _
    rw [outreq_GetBody, hget]
  rcases hA with ⟨err, h⟩ | ⟨reply, h, h404, hhdr⟩
  · rw [fallback_unreachable env st req err h, errorHandler_error env _ _ _ e hg]
    exact ⟨rfl, rfl, rfl⟩
  · rw [fallback_noRoute env st req reply h h404 hhdr, errorHandler_error env _ _ _ e hg]
    exact ⟨rfl, rfl, rfl⟩

/-- Witness of C8: `GET /exists-in-b` whose `GetBody` fails, A answering 404
with the no-route header. -/
theorem body_replay_error_witness :
    ((setupFallbackProxy Demo.env Demo.plain.s).ServeHTTP Demo.env Demo.plain
        (Demo.unreplayable "GET" "/exists-in-b")).rw =
        some (httpError ("error re-reading body: " ++ "body gone") 500) ∧
    ((setupFallbackProxy Demo.env Demo.plain.s).ServeHTTP Demo.env Demo.plain
        (Demo.unreplayable "GET" "/exists-in-b")).sent =
        [(setupFallbackProxy Demo.env Demo.plain.s).outreq Demo.env
          (Demo.unreplayable "GET" "/exists-in-b")] :=
  have h := body_replay_error Demo.env Demo.plain (Demo.unreplayable "GET" "/exists-in-b")
    "body gone" rfl (Or.inr ⟨_, rfl, by decide, by decide⟩)
  ⟨h.1, h.2.2⟩

/-- C4: when the route key of the request is cached to the target `X` of A or
of B, `mainHandler` behaves as the direct proxy of `X`: exactly one request is
sent, addressed to the scheme and host of `X`; the outcome of the transport is
relayed without inspection; the server, route table included, is unchanged. -/
theorem cached_fast_path (env : Env) (st : State) (r : Request) (X : URL)
    (hX : X = st.s.aTarget ∨ X = st.s.bTarget)
    (hhit : st.s.routes (routeKey r) = some X) :
    mainHandler env st r = (NewSingleHostReverseProxy X).ServeHTTP env st r ∧
    (mainHandler env st r).sent = st.sent ++ [(NewSingleHostReverseProxy X).outreq env r] ∧
    ((NewSingleHostReverseProxy X).outreq env r).URL.Scheme = X.Scheme ∧
    ((NewSingleHostReverseProxy X).outreq env r).URL.Host = X.Host ∧
    (mainHandler env st r).rw =
      some (relay (env.RoundTrip st.sent ((NewSingleHostReverseProxy X).outreq env r))) ∧
    (mainHandler env st r).s = st.s := by
  have hm := mainHandler_hit env st r X hX hhit
  refine ⟨hm, ?_, ?_, ?_, ?_, ?_⟩
  · rw [hm, serveHTTP_direct]
  · unfold ReverseProxy.outreq director
    split <;> rfl
  · unfold ReverseProxy.outreq director
    split <;> rfl
  · rw [hm, serveHTTP_direct]
  · rw [hm, serveHTTP_direct]

/-- C7: on a cache miss, when the round trip to A fails without a reply and B
answers, the request is replayed to B with the inbound body, the reply of B
is written to the client, the server (route table included) is unchanged, and
the next request with the same route key is sent to A first. -/
theorem a_unreachable (env : Env) (st : State) (r : Request) (body : Bytes)
    (err : String) (replyB : Reply)
    (hmiss : st.s.routes (routeKey r) = none)
    (hbody : r.Body = some (.data body))
    (hlen : r.ContentLength = 0 → body = [])
    (hA : env.RoundTrip st.sent (probeA env st.s r body) = .error err)
    (hB : env.RoundTrip (st.sent ++ [probeA env st.s r body]) (replayB env st.s r body)
      = .ok replyB) :
    (mainHandler env st r).sent =
      st.sent ++ [probeA env st.s r body, replayB env st.s r body] ∧
    (replayB env st.s r body).offered = .data body ∧
    (mainHandler env st r).rw = some replyB ∧
    (mainHandler env st r).s = st.s ∧
    ∀ (r2 : Request) (body2 : Bytes),
      routeKey r2 = routeKey r → r2.Body = some (.data body2) →
      ∃ rest, (mainHandler env (mainHandler env st r).next r2).sent =
        (mainHandler env st r).sent ++ probeA env st.s r2 body2 :: rest := by
  rw [miss_unreachable env st r body err hmiss hbody hA, hB]
  refine ⟨rfl, replayB_offered env st.s r body hlen, rfl, rfl, ?_⟩
  intro r2 body2 hkey hbody2
  have hmiss2 : (State.next
      { s := st.s, sent := st.sent ++ [probeA env st.s r body, replayB env st.s r body],
        rw := some (relay (Except.ok replyB)) }).s.routes (routeKey r2) = none := by
    rw [hkey]
    exact hmiss
  rcases miss_sent env _ r2 body2 hmiss2 hbody2 with h | h
  · exact ⟨[], h⟩
  · exact ⟨_, h⟩

/-- Witness of C4: the second request of "two requests served from b". -/
theorem cached_fast_path_witness :
    (mainHandler Demo.env Demo.warm (Demo.inbound "POST" "/exists-in-b")).sent =
      Demo.warm.sent ++ [(NewSingleHostReverseProxy (Demo.target "b.example" "")).outreq
        Demo.env (Demo.inbound "POST" "/exists-in-b")] ∧
    (mainHandler Demo.env Demo.warm (Demo.inbound "POST" "/exists-in-b")).s = Demo.warm.s :=
  have h := cached_fast_path Demo.env Demo.warm (Demo.inbound "POST" "/exists-in-b")
    (Demo.target "b.example" "") (Or.inr rfl) (by decide)
  ⟨h.2.1, h.2.2.2.2.2⟩

/-- Witness of C7: `POST /exists-in-b` while the host of A cannot be reached. -/
theorem a_unreachable_witness :
    (mainHandler Demo.env Demo.down (Demo.inbound "POST" "/exists-in-b")).rw =
      some (Demo.backendB (Demo.inbound "POST" "/exists-in-b") Demo.hello) ∧
    (mainHandler Demo.env Demo.down (Demo.inbound "POST" "/exists-in-b")).s = Demo.down.s :=
  have h := a_unreachable Demo.env Demo.down (Demo.inbound "POST" "/exists-in-b") Demo.hello
    "dial tcp: no such host" (Demo.backendB (Demo.inbound "POST" "/exists-in-b") Demo.hello)
    rfl rfl (by decide) rfl rfl
  ⟨h.2.2.1, h.2.2.2.1⟩

/-- Witness of C10: `GET /a b` with and without a query string. -/
theorem routeKey_injective_witness :
    (Demo.inbound "GET" "/a b").Method = (Demo.queried "GET" "/a b" "x=1").Method ∧
    (Demo.inbound "GET" "/a b").URL.Path = (Demo.queried "GET" "/a b" "x=1").URL.Path :=
  routeKey_injective (Demo.inbound "GET" "/a b") (Demo.queried "GET" "/a b" "x=1")
    (by decide) (by decide) rfl

/-- C5: on a cache miss with a readable body `body`, every request this run
of `mainHandler` hands to the transport offers exactly `body`: the first,
addressed to the scheme and host of A, and on fallback (A unreachable, or 404
with the no-route header) the second, addressed to the scheme and host of B.
After the attempt on A, `GetBody` still hands out a reader over the whole of
`body`, and in whatever state that attempt has left the body reader of the
request, the error handler sends B a request that offers `body`. -/
theorem body_preservation (env : Env) (st : State) (r : Request) (body : Bytes)
    (hmiss : st.s.routes (routeKey r) = none)
    (hbody : r.Body = some (.data body))
    (hlen : r.ContentLength = 0 → body = []) :
    (∀ q ∈ (mainHandler env st r).sent.drop st.sent.length, q.offered = .data body) ∧
    ((mainHandler env st r).sent = st.sent ++ [probeA env st.s r body] ∨
     (mainHandler env st r).sent =
       st.sent ++ [probeA env st.s r body, replayB env st.s r body]) ∧
    (∀ err, env.RoundTrip st.sent (probeA env st.s r body) = .error err →
      (mainHandler env st r).sent =
        st.sent ++ [probeA env st.s r body, replayB env st.s r body]) ∧
    (∀ reply, env.RoundTrip st.sent (probeA env st.s r body) = .ok reply →
      reply.StatusCode = 404 → reply.Header.Get env.HeaderNoRoute ≠ "" →
      (mainHandler env st r).sent =
        st.sent ++ [probeA env st.s r body, replayB env st.s r body]) ∧
    ((probeA env st.s r body).URL.Scheme = st.s.aTarget.Scheme ∧
     (probeA env st.s r body).URL.Host = st.s.aTarget.Host ∧
     (probeA env st.s r body).offered = .data body) ∧
    ((replayB env st.s r body).URL.Scheme = st.s.bTarget.Scheme ∧
     (replayB env st.s r body).URL.Host = st.s.bTarget.Host ∧
     (replayB env st.s r body).offered = .data body) ∧
    (afterTrip env (probeA env st.s r body)).GetBody = some (.reader (.data body)) ∧
    (∀ (st1 : State) (left : Option Reader) (err : String),
      ∃ qb, (fallbackErrorHandler env st1
              { probeA env st.s r body with Body := left } err).sent = st1.sent ++ [qb] ∧
            qb.URL.Host = st1.s.bTarget.Host ∧
            qb.offered = .data body) := by
  have hA := probeA_offered env st.s r body hlen
  have hB := replayB_offered env st.s r body hlen
  have hsent := miss_sent env st r body hmiss hbody
  refine ⟨?_, hsent, ?_, ?_, ⟨?_, ?_, hA⟩, ⟨?_, ?_, hB⟩, probeA_GetBody env st.s r body, ?_⟩
  · intro q hq
    rcases hsent with h | h
    · rw [h, List.drop_left] at hq
      rw [List.mem_singleton.mp hq]
      exact hA
    · rw [h, List.drop_left] at hq
      rcases List.mem_cons.mp hq with e | hq2
      · rw [e]
        exact hA
      · rw [List.mem_singleton.mp hq2]
        exact hB
  · intro err hA
    rw [miss_unreachable env st r body err hmiss hbody hA]
  · intro reply hA h404 hhdr
    rw [miss_noRoute env st r body reply hmiss hbody hA h404 hhdr]
  · exact (outreq_Authority env _ _).1
  · exact (outreq_Authority env _ _).2
  · exact (outreq_Authority env _ _).1
  · exact (outreq_Authority env _ _).2
  · intro st1 left err
    have hg : ({ probeA env st.s r body with Body := left } : Request).GetBody
        = some (.reader (.data body)) := probeA_GetBody env st.s r body
    have hcl : ({ ({ probeA env st.s r body with Body := left } : Request) with
        Body := some (.data body) } : Request).ContentLength = r.ContentLength := by
      show (probeA env st.s r body).ContentLength = _
      unfold probeA
      rw [outreq_ContentLength]
      rfl
    rw [errorHandler_reader env st1 _ err (.data body) hg]
    refine ⟨_, rfl, (outreq_Authority env _ _).2, ?_⟩
    unfold Request.offered
    rw [outreq_Body, hcl]
    by_cases h : r.ContentLength = 0
    · simp [h, hlen h]
    · simp [h]

/-- Witness of C5: `GET /exists-in-b` with body `hello`, as in "first request
served from b": A at `a.example` then B at `b.example` are each offered
`hello`. -/
theorem body_preservation_witness :
    (∀ q ∈ (mainHandler Demo.env Demo.plain (Demo.inbound "GET" "/exists-in-b")).sent.drop
        Demo.plain.sent.length, q.offered = .data Demo.hello) ∧
    (mainHandler Demo.env Demo.plain (Demo.inbound "GET" "/exists-in-b")).sent.map
        (fun q => (q.URL.Host, q.offered)) =
      [("a.example", Reader.data [104, 101, 108, 108, 111]),
       ("b.example", Reader.data [104, 101, 108, 108, 111])] :=
  have h := body_preservation Demo.env Demo.plain (Demo.inbound "GET" "/exists-in-b")
    Demo.hello rfl rfl (by decide)
  ⟨h.1, by decide⟩

/-- C1 at the failing input: A is configured as `http://api.example/api` and
`GET /exists-in-b` misses the cache.  A answers 404 with the no-route header,
A then B are contacted, yet afterwards the route key of the inbound request is
still absent from the route table: B was recorded under `GET /api/exists-in-b`,
the key of the request rewritten for A. -/
theorem noRoute_recorded_under_outbound_key :
    (∃ reply, Demo.env.RoundTrip []
        (probeA Demo.env Demo.based.s (Demo.inbound "GET" "/exists-in-b") Demo.hello)
          = .ok reply ∧
      reply.StatusCode = 404 ∧ reply.Header.Get Demo.env.HeaderNoRoute = "a") ∧
    (mainHandler Demo.env Demo.based (Demo.inbound "GET" "/exists-in-b")).sent.map
        (fun q => q.URL.Host) = ["api.example", "b.example"] ∧
    (mainHandler Demo.env Demo.based (Demo.inbound "GET" "/exists-in-b")).s.routes
        (routeKey (Demo.inbound "GET" "/exists-in-b")) = none ∧
    (mainHandler Demo.env Demo.based (Demo.inbound "GET" "/exists-in-b")).s.routes
        "GET /api/exists-in-b" = some Demo.based.s.bTarget := by
  refine ⟨⟨_, rfl, by decide, by decide⟩, by decide, by decide, by decide⟩

/-- C2 at the failing input: A is configured as `http://api.example/api` and
`POST /exists-in-a` misses the cache.  A answers 200, its reply is written to
the client and only A is contacted, yet afterwards the route key of the
inbound request is still absent from the route table: A was recorded under
`POST /api/exists-in-a`. -/
theorem served_recorded_under_outbound_key :
    (mainHandler Demo.env Demo.based (Demo.inbound "POST" "/exists-in-a")).rw =
      some (Demo.backendA (Demo.inbound "POST" "/exists-in-a") Demo.hello) ∧
    (Demo.backendA (Demo.inbound "POST" "/exists-in-a") Demo.hello).StatusCode = 200 ∧
    (mainHandler Demo.env Demo.based (Demo.inbound "POST" "/exists-in-a")).sent.map
        (fun q => q.URL.Host) = ["api.example"] ∧
    (mainHandler Demo.env Demo.based (Demo.inbound "POST" "/exists-in-a")).s.routes
        (routeKey (Demo.inbound "POST" "/exists-in-a")) = none ∧
    (mainHandler Demo.env Demo.based (Demo.inbound "POST" "/exists-in-a")).s.routes
        "POST /api/exists-in-a" = some Demo.based.s.aTarget := by
  refine ⟨by decide, by decide, by decide, by decide, by decide⟩

/-- C3 at the failing input: A is configured as `http://api.example/api` and
`POST /exists-in-b` is requested twice.  The first request resolves to B; the
second one does not find its route key in the route table and probes A again:
the backends are contacted in the order A, B, A, B. -/
theorem second_request_probes_again :
    (mainHandler Demo.env Demo.based (Demo.inbound "POST" "/exists-in-b")).next.s.routes
        (routeKey (Demo.inbound "POST" "/exists-in-b")) = none ∧
    (mainHandler Demo.env
        (mainHandler Demo.env Demo.based (Demo.inbound "POST" "/exists-in-b")).next
        (Demo.inbound "POST" "/exists-in-b")).sent.map (fun q => q.URL.Host) =
      ["api.example", "b.example", "api.example", "b.example"] := by
  refine ⟨by decide, by decide⟩

/-- C6 at the failing input: A is configured as `http://api.example/api`, B as
`http://b.example`, and `GET /exists-in-b` falls back.  The request handed to
the proxy of B carries `/api/exists-in-b`, the path already rewritten for A,
so B is asked for `/api/exists-in-b` and not for its own base path joined
with the inbound path, which is `/exists-in-b`; it answers 404 where its
handler for `/exists-in-b` answers 200. -/
theorem fallback_forwards_rewritten_path :
    (mainHandler Demo.env Demo.based (Demo.inbound "GET" "/exists-in-b")).sent.map
        (fun q => (q.Method, q.URL.Host, q.URL.Path)) =
      [("GET", "api.example", "/api/exists-in-b"), ("GET", "b.example", "/api/exists-in-b")] ∧
    (afterTrip Demo.env
        (probeA Demo.env Demo.based.s (Demo.inbound "GET" "/exists-in-b") Demo.hello)).URL.Path =
      "/api/exists-in-b" ∧
    (joinURLPath Demo.env Demo.based.s.bTarget (Demo.inbound "GET" "/exists-in-b").URL).1 =
      "/exists-in-b" ∧
    ((mainHandler Demo.env Demo.based (Demo.inbound "GET" "/exists-in-b")).rw.map
        (fun reply => reply.StatusCode)) = some 404 ∧
    (Demo.backendB (Demo.inbound "GET" "/exists-in-b") Demo.hello).StatusCode = 200 := by
  refine ⟨by decide, by decide, by decide, by decide, by decide⟩

end Gateway
